import Mathlib

/- Shallow embedding of the Github-MCP tool handlers.

   Upstream (PyGithub / network / local git) behavior is abstracted: every
   upstream primitive is passed in as an `Except Exc` value describing what
   that call would yield, and each handler model also reports how many
   upstream primitives it invoked.  The control flow, pagination arithmetic,
   Python truthiness tests, defaulting and exception handling are translated
   directly from the Python sources (git_repo.py, git_issues.py,
   search_repo.py, pull_requests.py). -/

/-- Classification of the Python exceptions relevant to the handlers:
    `githubExc` stands for PyGithub's GithubException (the only class the
    search and pull-request handlers catch), `typeError` for TypeError,
    `indexError` for IndexError, `otherExc` for anything else. -/
inductive ExcKind where
  | githubExc
  | typeError
  | indexError
  | assertionError
  | otherExc
  deriving DecidableEq

/-- A Python exception value: its class and its str() rendering. -/
structure Exc where
  kind : ExcKind
  msg : String
  deriving DecidableEq

/-- What a tool invocation does from the caller's point of view: either it
    returns a value, or it lets a Python exception escape. -/
inductive Outcome (α : Type) where
  | returned (v : α)
  | raised (e : Exc)
  deriving DecidableEq

/-- True when the tool returned a value instead of raising. -/
def Outcome.isReturned {α : Type} : Outcome α → Bool
  | Outcome.returned _ => true
  | Outcome.raised _ => false

/-- Python truthiness for an optional string: None and the empty string are
    falsy, every other string is truthy. -/
def pyTruthy : Option String → Bool
  | none => false
  | some s => !(s == "")

/-- The str() rendering of an optional argument, as it appears in an
    AssertionError raised by `assert cond, arg`: None renders as "None". -/
def pyStrOpt : Option String → String
  | none => "None"
  | some s => s

/-- Models taking `raw[start:stop]` of a freshly created PyGithub
    PaginatedList and then iterating the slice (step 1), given `fetchRes`,
    the list of items the upstream fetch would yield.  PaginatedList._Slice
    iterates indices from `start` while `index < stop`, and each access
    runs `__fetchToIndex(index)` then unconditionally indexes the cache
    `self.__elements[index]`.  Hence: an empty slice never accesses an
    element (no fetch, no error); a negative `start` with a nonempty slice
    indexes the still-empty cache and raises IndexError before any fetch;
    a `start` at or beyond the end of the data (including an empty result
    set) exhausts the fetch and then raises IndexError on the cache;
    otherwise the items at positions `[start, stop)` that exist are
    produced — a `stop` beyond the data ends cleanly because the cache is
    fully fetched and can no longer grow by then. -/
def sliceIter {α : Type} (fetchRes : Except Exc (List α)) (start stop : Int) :
    Except Exc (List α) :=
  if stop ≤ start then Except.ok []
  else if start < 0 then Except.error ⟨ExcKind.indexError, "list index out of range"⟩
  else
    match fetchRes with
    | Except.error e => Except.error e
    | Except.ok l =>
      if l.length ≤ start.toNat then
        Except.error ⟨ExcKind.indexError, "list index out of range"⟩
      else Except.ok ((l.take stop.toNat).drop start.toNat)

/-- Whether iterating `raw[start:stop]` performs any upstream fetch: the
    empty slice never accesses an element, and a negative `start` fails on
    the still-empty cache before fetching; every other slice runs
    `__fetchToIndex` and so invokes the upstream. -/
def sliceFetches (start stop : Int) : Bool :=
  if stop ≤ start then false
  else if start < 0 then false
  else true

namespace GitRepo

/-- git_repo.py GetCommitParams. -/
structure GetCommitParams where
  owner : String
  repo : String
  sha : String
  deriving DecidableEq

/-- git_repo.py ListCommitsParams (per_page default 30, page default 1). -/
structure ListCommitsParams where
  owner : String
  repo : String
  sha : Option String := none
  per_page : Int := 30
  page : Int := 1
  deriving DecidableEq

/-- git_repo.py ListBranchesParams. -/
structure ListBranchesParams where
  owner : String
  repo : String
  per_page : Int := 30
  page : Int := 1
  deriving DecidableEq

/-- git_repo.py CreateOrUpdateFileParams; `sha` is optional and selects
    update versus create. -/
structure CreateOrUpdateFileParams where
  owner : String
  repo : String
  path : String
  content : String
  message : String
  branch : String
  sha : Option String := none
  deriving DecidableEq

/-- git_repo.py GitPushLocalTOGIT (input schema of push_to_github). -/
structure GitPushLocalTOGIT where
  repo_path : String
  remote_url : String
  branch : String
  commit_msg : Option String := none
  deriving DecidableEq

/-- Result of a git_repo.py tool: the single content/text element either
    carries json.dumps of the payload or the string built in the except
    branch. -/
inductive RepoOut (α : Type) where
  | data (payload : α)
  | errorText (msg : String)
  deriving DecidableEq

/-- Tool get_commit: gh.get_repo then repo.get_commit, the whole body under
    a bare `except Exception` that renders `Error: str(e)`. -/
def get_commit {α : Type} (getRepoRes : Except Exc Unit) (getCommitRes : Except Exc α)
    (_p : GetCommitParams) : Outcome (RepoOut α) × Nat :=
  match getRepoRes with
  | Except.error e => (Outcome.returned (RepoOut.errorText ("Error: " ++ e.msg)), 1)
  | Except.ok _ =>
    match getCommitRes with
    | Except.error e => (Outcome.returned (RepoOut.errorText ("Error: " ++ e.msg)), 2)
    | Except.ok c => (Outcome.returned (RepoOut.data c), 2)

/-- Tool list_commits: gh.get_repo (one upstream call), then
    `repo.get_commits(sha=sha)` — PyGithub asserts sha be a string or
    unset, so the schema default sha=None fails that assertion and the bare
    except renders "Error: None" before any slicing — then
    `commits[start:end]` with start = (page-1)*per_page and
    end = start+per_page iterated, under a bare `except Exception`.  The
    commit fetch is counted only when the slice actually fetches. -/
def list_commits {α : Type} (getRepoRes : Except Exc Unit) (fetchCommits : Except Exc (List α))
    (p : ListCommitsParams) : Outcome (RepoOut (List α)) × Nat :=
  match getRepoRes with
  | Except.error e => (Outcome.returned (RepoOut.errorText ("Error: " ++ e.msg)), 1)
  | Except.ok _ =>
    match p.sha with
    | none => (Outcome.returned (RepoOut.errorText ("Error: " ++ pyStrOpt none)), 1)
    | some _ =>
      match sliceIter fetchCommits ((p.page - 1) * p.per_page)
          ((p.page - 1) * p.per_page + p.per_page) with
      | Except.error e =>
        (Outcome.returned (RepoOut.errorText ("Error: " ++ e.msg)),
          if sliceFetches ((p.page - 1) * p.per_page)
              ((p.page - 1) * p.per_page + p.per_page) then 2 else 1)
      | Except.ok items =>
        (Outcome.returned (RepoOut.data items),
          if sliceFetches ((p.page - 1) * p.per_page)
              ((p.page - 1) * p.per_page + p.per_page) then 2 else 1)

/-- Tool list_branches: same control flow as list_commits over
    repo.get_branches(), which takes no arguments (no sha assertion). -/
def list_branches {α : Type} (getRepoRes : Except Exc Unit) (fetchBranches : Except Exc (List α))
    (p : ListBranchesParams) : Outcome (RepoOut (List α)) × Nat :=
  match getRepoRes with
  | Except.error e => (Outcome.returned (RepoOut.errorText ("Error: " ++ e.msg)), 1)
  | Except.ok _ =>
    match sliceIter fetchBranches ((p.page - 1) * p.per_page)
        ((p.page - 1) * p.per_page + p.per_page) with
    | Except.error e =>
      (Outcome.returned (RepoOut.errorText ("Error: " ++ e.msg)),
        if sliceFetches ((p.page - 1) * p.per_page)
            ((p.page - 1) * p.per_page + p.per_page) then 2 else 1)
    | Except.ok items =>
      (Outcome.returned (RepoOut.data items),
        if sliceFetches ((p.page - 1) * p.per_page)
            ((p.page - 1) * p.per_page + p.per_page) then 2 else 1)

/-- The file operation create_or_update_file dispatches on Python
    truthiness of `sha`: `if sha:` runs repo.update_file with that sha,
    otherwise repo.create_file. -/
inductive FileAction where
  | create (path message content branch : String)
  | update (path message content sha branch : String)
  deriving DecidableEq

/-- The dispatch performed by create_or_update_file. -/
def fileAction (p : CreateOrUpdateFileParams) : FileAction :=
  if pyTruthy p.sha then
    FileAction.update p.path p.message p.content (p.sha.getD "") p.branch
  else
    FileAction.create p.path p.message p.content p.branch

/-- Tool create_or_update_file: gh.get_repo, then the update/create call
    chosen by `fileAction`, under a bare `except Exception`. -/
def create_or_update_file {α : Type} (getRepoRes : Except Exc Unit)
    (doFile : FileAction → Except Exc α) (p : CreateOrUpdateFileParams) :
    Outcome (RepoOut α) × Nat :=
  match getRepoRes with
  | Except.error e => (Outcome.returned (RepoOut.errorText ("Error: " ++ e.msg)), 1)
  | Except.ok _ =>
    match doFile (fileAction p) with
    | Except.error e => (Outcome.returned (RepoOut.errorText ("Error: " ++ e.msg)), 2)
    | Except.ok resp => (Outcome.returned (RepoOut.data resp), 2)

/-- State of the local repository handled by push_to_github: the commit
    messages in history order, the current branch name, and the configured
    remotes (name, url). -/
structure LocalRepo where
  commits : List String
  branch : String
  remotes : List (String × String)
  deriving DecidableEq

/-- The local filesystem view push_to_github manipulates: whether
    repo_path exists, whether it already is a git repository, and that
    repository's state. -/
structure LocalFS where
  pathExists : Bool
  isGitRepo : Bool
  repo : LocalRepo
  deriving DecidableEq

/-- The content/text message returned by push_to_github. -/
inductive PushOut where
  | text (msg : String)
  deriving DecidableEq

/-- `branch = params.branch or "main"`: the empty string falls back to
    "main". -/
def effBranch (p : GitPushLocalTOGIT) : String :=
  if p.branch = "" then "main" else p.branch

/-- `commit_msg = params.commit_msg or "Initial commit"`: None and the
    empty string fall back to "Initial commit". -/
def effCommitMsg (p : GitPushLocalTOGIT) : String :=
  match p.commit_msg with
  | none => "Initial commit"
  | some m => if m = "" then "Initial commit" else m

/-- The repository Repo.init produces on a directory that was not yet a
    git repository: no commits, default branch, no remotes. -/
def initRepo : LocalRepo :=
  ⟨[], "master", []⟩

/-- `Repo(repo_path)` when the path is a repository, `Repo.init` otherwise
    (the InvalidGitRepositoryError branch). -/
def loadedRepo (fs : LocalFS) : LocalRepo :=
  if fs.isGitRepo then fs.repo else initRepo

/-- `if not repo.head.is_valid(): repo.index.commit(commit_msg)` — a commit
    is created only when there is no prior commit; the history is never
    amended. -/
def afterCommit (msg : String) (repo : LocalRepo) : LocalRepo :=
  if repo.commits.isEmpty then { repo with commits := repo.commits ++ [msg] } else repo

/-- `repo.git.branch("-M", branch)` — force-rename the current branch. -/
def afterBranch (branch : String) (repo : LocalRepo) : LocalRepo :=
  { repo with branch := branch }

/-- Create the remote `origin` pointing at remote_url unless a remote of
    that name already exists. -/
def afterRemote (url : String) (repo : LocalRepo) : LocalRepo :=
  if repo.remotes.any (fun rm => rm.1 == "origin") then repo
  else { repo with remotes := repo.remotes ++ [("origin", url)] }

/-- Local state after the body of push_to_github ran: untouched when the
    path does not exist, otherwise load-or-init, stage (which does not
    alter the commit list), commit-if-none, rename branch, ensure remote.
    The state is kept even when the final push raises (the except branch
    does not roll anything back). -/
def pushState (p : GitPushLocalTOGIT) (fs : LocalFS) : LocalFS :=
  if fs.pathExists then
    ⟨true, true, afterRemote p.remote_url (afterBranch (effBranch p) (afterCommit (effCommitMsg p) (loadedRepo fs)))⟩
  else fs

/-- Tool push_to_github.  `pushRes` is the outcome of
    `origin.push(refspec=branch:branch)`, the only step modelled as
    fallible; a failure is caught by the bare except and rendered, with the
    local mutations already applied. -/
def push_to_github (pushRes : Except Exc Unit) (p : GitPushLocalTOGIT) (fs : LocalFS) :
    PushOut × LocalFS :=
  if fs.pathExists then
    match pushRes with
    | Except.ok _ =>
      (PushOut.text ("✅ Successfully pushed to " ++ p.remote_url ++ " on branch '" ++ effBranch p ++ "'."),
        pushState p fs)
    | Except.error e =>
      (PushOut.text ("❌ Error: " ++ e.msg), pushState p fs)
  else (PushOut.text "❌ Repo path does not exist.", fs)

end GitRepo

namespace GitIssues

/-- git_issues.py IssueParams. -/
structure IssueParams where
  owner : String
  repo : String
  issue_number : Int
  deriving DecidableEq

/-- git_issues.py SearchParams (used by search_issues). -/
structure SearchParams where
  q : String
  sort : Option String := none
  order : Option String := none
  per_page : Int := 30
  page : Int := 1
  deriving DecidableEq

/-- git_issues.py ListIssuesParams. -/
structure ListIssuesParams where
  owner : String
  repo : String
  state : Option String := some "open"
  labels : Option (List String) := none
  sort : Option String := none
  direction : Option String := none
  since : Option String := none
  per_page : Int := 30
  page : Int := 1
  deriving DecidableEq

/-- git_issues.py CommentsListParams (IssueParams plus page, per_page). -/
structure CommentsListParams where
  owner : String
  repo : String
  issue_number : Int
  page : Int := 1
  per_page : Int := 30
  deriving DecidableEq

/-- Models PaginatedList.get_page(i) for i ≥ 0: the Github client was
    built without a per_page argument, so the requester's default page size
    of 30 applies and the page holds the upstream items at positions
    [30*i, 30*i+30) (GitHub treats the page-0 request like page 1, which
    the toNat clamp reproduces for negative i). -/
def getPage {α : Type} (l : List α) (i : Int) : List α :=
  (l.drop (30 * i).toNat).take 30

/-- datetime.fromisoformat: called on None it raises
    `TypeError: fromisoformat: argument must be str`; on a string it
    parses (parsing itself is not modelled further — no claim depends on
    malformed timestamp strings). -/
def fromisoformat : Option String → Except Exc String
  | none => Except.error ⟨ExcKind.typeError, "fromisoformat: argument must be str"⟩
  | some s => Except.ok s

/-- Tool get_issue: g.get_repo then repo.get_issue, with no try/except —
    any upstream exception escapes to the caller. -/
def get_issue {α : Type} (getRepoRes : Except Exc Unit) (getIssueRes : Except Exc α)
    (_p : IssueParams) : Outcome α × Nat :=
  match getRepoRes with
  | Except.error e => (Outcome.raised e, 1)
  | Except.ok _ =>
    match getIssueRes with
    | Except.error e => (Outcome.raised e, 2)
    | Except.ok issue => (Outcome.returned issue, 2)

/-- Tool add_issue_comment: get_repo, get_issue, create_comment, with no
    try/except. -/
def add_issue_comment {α : Type} (getRepoRes getIssueRes : Except Exc Unit)
    (createRes : Except Exc α) (_p : IssueParams) (_body : String) : Outcome α × Nat :=
  match getRepoRes with
  | Except.error e => (Outcome.raised e, 1)
  | Except.ok _ =>
    match getIssueRes with
    | Except.error e => (Outcome.raised e, 2)
    | Except.ok _ =>
      match createRes with
      | Except.error e => (Outcome.raised e, 3)
      | Except.ok c => (Outcome.returned c, 3)

/-- Tool search_issues: `g.search_issues(query, sort, order)` validates
    its arguments eagerly — PyGithub asserts sort be unset or one of
    comments/created/updated and order be unset or asc/desc, and the
    schema defaults sort=None, order=None are forwarded as-is, so they
    fail the assertion before any fetch (str of the AssertionError is the
    offending value, "None").  With valid sort and order the list is lazy
    and `results.get_page(page-1)` performs the single fetch.
    params.per_page is never forwarded.  No try/except. -/
def search_issues {α : Type} (searchRes : Except Exc (List α)) (p : SearchParams) :
    Outcome (List α) × Nat :=
  if p.sort = some "comments" ∨ p.sort = some "created" ∨ p.sort = some "updated" then
    if p.order = some "asc" ∨ p.order = some "desc" then
      match searchRes with
      | Except.error e => (Outcome.raised e, 1)
      | Except.ok l => (Outcome.returned (getPage l (p.page - 1)), 1)
    else (Outcome.raised ⟨ExcKind.assertionError, pyStrOpt p.order⟩, 0)
  else (Outcome.raised ⟨ExcKind.assertionError, pyStrOpt p.sort⟩, 0)

/-- Tool list_issues: g.get_repo first, then the keyword dict is built —
    which evaluates datetime.fromisoformat(params.since) before the
    None-filtering comprehension runs — then repo.get_issues.  No
    try/except.  The tool returns the raw lazy result object. -/
def list_issues {β : Type} (getRepoRes : Except Exc Unit) (getIssuesRes : Except Exc β)
    (p : ListIssuesParams) : Outcome β × Nat :=
  match getRepoRes with
  | Except.error e => (Outcome.raised e, 1)
  | Except.ok _ =>
    match fromisoformat p.since with
    | Except.error e => (Outcome.raised e, 1)
    | Except.ok _ =>
      match getIssuesRes with
      | Except.error e => (Outcome.raised e, 2)
      | Except.ok issues => (Outcome.returned issues, 2)

/-- Tool get_issue_comments: get_repo, get_issue, then
    `comments[:params.per_page]` iterated — a PaginatedList slice from 0 to
    per_page; params.page is never used.  No try/except. -/
def get_issue_comments {α : Type} (getRepoRes getIssueRes : Except Exc Unit)
    (commentsRes : Except Exc (List α)) (p : CommentsListParams) :
    Outcome (List α) × Nat :=
  match getRepoRes with
  | Except.error e => (Outcome.raised e, 1)
  | Except.ok _ =>
    match getIssueRes with
    | Except.error e => (Outcome.raised e, 2)
    | Except.ok _ =>
      match sliceIter commentsRes 0 p.per_page with
      | Except.error e =>
        (Outcome.raised e, if sliceFetches 0 p.per_page then 3 else 2)
      | Except.ok sl =>
        (Outcome.returned sl, if sliceFetches 0 p.per_page then 3 else 2)

end GitIssues

namespace SearchRepo

/-- search_repo.py SearchReposParams. -/
structure SearchReposParams where
  q : String
  per_page : Int := 30
  page : Int := 1
  deriving DecidableEq

/-- search_repo.py SearchCodeParams: sort and order are accepted by the
    schema. -/
structure SearchCodeParams where
  q : String
  sort : Option String := none
  order : Option String := none
  per_page : Int := 30
  page : Int := 1
  deriving DecidableEq

/-- search_repo.py SearchUsersParams. -/
structure SearchUsersParams where
  q : String
  sort : Option String := none
  order : Option String := none
  per_page : Int := 30
  page : Int := 1
  deriving DecidableEq

/-- Result of a search_repo.py tool: the success dict with total_count and
    the per-item projection list (the projected dicts are kept opaque), or
    the `{error: str(e)}` dict from the `except GithubException` branch. -/
inductive SearchOut (α : Type) where
  | results (total_count : Nat) (items : List α)
  | errorDict (msg : String)
  deriving DecidableEq

/-- The query search_code forwards upstream: exactly params.q; sort and
    order never leave the schema. -/
def searchCodeQuery (p : SearchCodeParams) : String :=
  p.q

/-- Tool search_repositories: the search call is lazy, slicing plus
    iteration performs the fetch, then result.totalCount is read (a fetch
    of the same query when the slice never touched the network).  Only
    GithubException is caught; anything else escapes. -/
def search_repositories {α : Type} (fetch : String → Except Exc (List α))
    (p : SearchReposParams) : Outcome (SearchOut α) :=
  match sliceIter (fetch p.q) ((p.page - 1) * p.per_page)
      ((p.page - 1) * p.per_page + p.per_page) with
  | Except.error e =>
    if e.kind = ExcKind.githubExc then Outcome.returned (SearchOut.errorDict e.msg)
    else Outcome.raised e
  | Except.ok items =>
    match fetch p.q with
    | Except.error e =>
      if e.kind = ExcKind.githubExc then Outcome.returned (SearchOut.errorDict e.msg)
      else Outcome.raised e
    | Except.ok l => Outcome.returned (SearchOut.results l.length items)

/-- Tool search_code: same body as search_repositories over g.search_code;
    params.sort and params.order are not used (the source comments that
    PyGithub search_code does not support them). -/
def search_code {α : Type} (fetch : String → Except Exc (List α))
    (p : SearchCodeParams) : Outcome (SearchOut α) :=
  match sliceIter (fetch (searchCodeQuery p)) ((p.page - 1) * p.per_page)
      ((p.page - 1) * p.per_page + p.per_page) with
  | Except.error e =>
    if e.kind = ExcKind.githubExc then Outcome.returned (SearchOut.errorDict e.msg)
    else Outcome.raised e
  | Except.ok items =>
    match fetch (searchCodeQuery p) with
    | Except.error e =>
      if e.kind = ExcKind.githubExc then Outcome.returned (SearchOut.errorDict e.msg)
      else Outcome.raised e
    | Except.ok l => Outcome.returned (SearchOut.results l.length items)

/-- Tool search_users: same body as search_repositories over
    g.search_users. -/
def search_users {α : Type} (fetch : String → Except Exc (List α))
    (p : SearchUsersParams) : Outcome (SearchOut α) :=
  match sliceIter (fetch p.q) ((p.page - 1) * p.per_page)
      ((p.page - 1) * p.per_page + p.per_page) with
  | Except.error e =>
    if e.kind = ExcKind.githubExc then Outcome.returned (SearchOut.errorDict e.msg)
    else Outcome.raised e
  | Except.ok items =>
    match fetch p.q with
    | Except.error e =>
      if e.kind = ExcKind.githubExc then Outcome.returned (SearchOut.errorDict e.msg)
      else Outcome.raised e
    | Except.ok l => Outcome.returned (SearchOut.results l.length items)

end SearchRepo

namespace PullRequests

/-- pull_requests.py PullRequestState enum. -/
inductive PullRequestState where
  | stOpen
  | stClosed
  | stAll
  deriving DecidableEq

/-- The .value string of a PullRequestState member. -/
def PullRequestState.val : PullRequestState → String
  | PullRequestState.stOpen => "open"
  | PullRequestState.stClosed => "closed"
  | PullRequestState.stAll => "all"

/-- pull_requests.py PullRequestSort enum. -/
inductive PullRequestSort where
  | created
  | updated
  | popularity
  | longRunning
  deriving DecidableEq

/-- The .value string of a PullRequestSort member. -/
def PullRequestSort.val : PullRequestSort → String
  | PullRequestSort.created => "created"
  | PullRequestSort.updated => "updated"
  | PullRequestSort.popularity => "popularity"
  | PullRequestSort.longRunning => "long-running"

/-- pull_requests.py Direction enum. -/
inductive Direction where
  | asc
  | desc
  deriving DecidableEq

/-- The .value string of a Direction member. -/
def Direction.val : Direction → String
  | Direction.asc => "asc"
  | Direction.desc => "desc"

/-- pull_requests.py GetPullRequestInput. -/
structure GetPullRequestInput where
  owner : String
  repo : String
  pull_number : Int
  deriving DecidableEq

/-- pull_requests.py ListPullRequestsInput. -/
structure ListPullRequestsInput where
  owner : String
  repo : String
  state : Option PullRequestState := none
  head : Option String := none
  base : Option String := none
  sort : Option PullRequestSort := none
  direction : Option Direction := none
  per_page : Int := 30
  page : Int := 1
  deriving DecidableEq

/-- pull_requests.py GetPullRequestFilesInput. -/
structure GetPullRequestFilesInput where
  owner : String
  repo : String
  pull_number : Int
  per_page : Int := 30
  page : Int := 1
  deriving DecidableEq

/-- Result of a pull_requests.py tool: the json payload, or one of the
    message texts ("Repository not found." / "Error: ..."). -/
inductive PROut (α : Type) where
  | payload (items : α)
  | message (text : String)
  deriving DecidableEq

/-- Helper tool get_repo: `g.get_user(owner).get_repo(repo_name)` under
    `except GithubException: return None` — a GithubException becomes None,
    any other exception propagates to the caller of get_repo. -/
def get_repo {α : Type} (res : Except Exc α) : Except Exc (Option α) × Nat :=
  match res with
  | Except.ok r => (Except.ok (some r), 1)
  | Except.error e =>
    if e.kind = ExcKind.githubExc then (Except.ok none, 1) else (Except.error e, 1)

/-- The state/sort/direction strings list_pull_requests forwards to
    repo.get_pulls: `data.state.value if data.state else "open"`, and
    likewise "created" and "desc". -/
def forwardedPulls (d : ListPullRequestsInput) : String × String × String :=
  (match d.state with
    | some s => s.val
    | none => "open",
   match d.sort with
    | some s => s.val
    | none => "created",
   match d.direction with
    | some dir => dir.val
    | none => "desc")

/-- Tool get_pull_request: get_repo (outside the try — its non-Github
    exceptions escape), None becomes "Repository not found.", then
    repo.get_pull under `except GithubException`. -/
def get_pull_request {α : Type} (repoRes : Except Exc Unit) (pullRes : Except Exc α)
    (_d : GetPullRequestInput) : Outcome (PROut α) × Nat :=
  match get_repo repoRes with
  | (Except.error e, n) => (Outcome.raised e, n)
  | (Except.ok none, n) => (Outcome.returned (PROut.message "Repository not found."), n)
  | (Except.ok (some _), n) =>
    match pullRes with
    | Except.error e =>
      if e.kind = ExcKind.githubExc then
        (Outcome.returned (PROut.message ("Error: " ++ e.msg)), n + 1)
      else (Outcome.raised e, n + 1)
    | Except.ok pr => (Outcome.returned (PROut.payload pr), n + 1)

/-- Tool list_pull_requests: get_repo, then repo.get_pulls at the
    forwarded state/sort/direction, then `[pr.raw_data for pr in pulls]` —
    the whole result set, with page and per_page never consulted.  Only
    GithubException is caught inside the try. -/
def list_pull_requests {α : Type} (repoRes : Except Exc Unit)
    (pullsFn : String → String → String → Except Exc (List α))
    (d : ListPullRequestsInput) : Outcome (PROut (List α)) × Nat :=
  match get_repo repoRes with
  | (Except.error e, n) => (Outcome.raised e, n)
  | (Except.ok none, n) => (Outcome.returned (PROut.message "Repository not found."), n)
  | (Except.ok (some _), n) =>
    match pullsFn (forwardedPulls d).1 (forwardedPulls d).2.1 (forwardedPulls d).2.2 with
    | Except.error e =>
      if e.kind = ExcKind.githubExc then
        (Outcome.returned (PROut.message ("Error: " ++ e.msg)), n + 1)
      else (Outcome.raised e, n + 1)
    | Except.ok l => (Outcome.returned (PROut.payload l), n + 1)

/-- Tool get_pull_request_files: get_repo, repo.get_pull, pr.get_files
    iterated in full — `[file.raw_data for file in files]` with page and
    per_page never consulted.  Only GithubException is caught. -/
def get_pull_request_files {α : Type} (repoRes : Except Exc Unit)
    (getPullRes : Except Exc Unit) (filesRes : Except Exc (List α))
    (_d : GetPullRequestFilesInput) : Outcome (PROut (List α)) × Nat :=
  match get_repo repoRes with
  | (Except.error e, n) => (Outcome.raised e, n)
  | (Except.ok none, n) => (Outcome.returned (PROut.message "Repository not found."), n)
  | (Except.ok (some _), n) =>
    match getPullRes with
    | Except.error e =>
      if e.kind = ExcKind.githubExc then
        (Outcome.returned (PROut.message ("Error: " ++ e.msg)), n + 1)
      else (Outcome.raised e, n + 1)
    | Except.ok _ =>
      match filesRes with
      | Except.error e =>
        if e.kind = ExcKind.githubExc then
          (Outcome.returned (PROut.message ("Error: " ++ e.msg)), n + 2)
        else (Outcome.raised e, n + 2)
      | Except.ok l => (Outcome.returned (PROut.payload l), n + 2)

end PullRequests

/-- Helper: dropping the first `m` of the first `m + n` elements is the
    `n`-element window starting at position `m`. -/
theorem take_add_drop {α : Type} (l : List α) (m n : Nat) :
    (l.take (m + n)).drop m = (l.drop m).take n := by
  have h := List.drop_take (m + n) m l
  simpa using h

/-- Helper: on a successful fetch whose data reaches past the window
    start, a slice from `s` to `s + p` with `0 ≤ s` and `0 ≤ p` yields the
    window of `p.toNat` items starting at position `s.toNat`. -/
theorem sliceIter_ok {α : Type} (l : List α) (s p : Int) (hs : 0 ≤ s) (hp : 0 ≤ p)
    (hlt : s.toNat < l.length) :
    sliceIter (Except.ok l) s (s + p) =
      Except.ok ((l.drop s.toNat).take p.toNat) := by
  by_cases h : p ≤ 0
  · have hp0 : p = 0 := le_antisymm h hp
    subst hp0
    simp [sliceIter]
  · have h1 : ¬ (s + p ≤ s) := by omega
    have h2 : ¬ (s < 0) := by omega
    have h4 : ¬ (l.length ≤ s.toNat) := by omega
    simp only [sliceIter, if_neg h1, if_neg h2, if_neg h4]
    have h3 : (s + p).toNat = s.toNat + p.toNat := by omega
    rw [h3, take_add_drop]

/-- Helper: on a successful fetch whose data ends at or before the window
    start, a nonempty slice raises IndexError after exhausting the
    fetch. -/
theorem sliceIter_oob {α : Type} (l : List α) (s p : Int) (hs : 0 ≤ s) (hp : 1 ≤ p)
    (hge : l.length ≤ s.toNat) :
    sliceIter (Except.ok l) s (s + p)
      = Except.error ⟨ExcKind.indexError, "list index out of range"⟩ := by
  have h1 : ¬ (s + p ≤ s) := by omega
  have h2 : ¬ (s < 0) := by omega
  simp only [sliceIter, if_neg h1, if_neg h2, if_pos hge]

/-- Helper: a nonempty slice with negative start raises IndexError before
    any fetch, whatever the fetch would yield. -/
theorem sliceIter_neg {α : Type} (fetchRes : Except Exc (List α)) (s p : Int)
    (h0 : s < 0) (h : s < p) :
    sliceIter fetchRes s p
      = Except.error ⟨ExcKind.indexError, "list index out of range"⟩ := by
  unfold sliceIter
  rw [if_neg (by omega), if_pos h0]

/-- Helper: an empty slice yields the empty list without any fetch,
    whatever the fetch would yield. -/
theorem sliceIter_empty {α : Type} (fetchRes : Except Exc (List α)) (s p : Int)
    (h : p ≤ s) :
    sliceIter fetchRes s p = Except.ok [] := by
  unfold sliceIter
  rw [if_pos h]

/-- Helper: a nonempty slice with nonnegative start fetches. -/
theorem sliceFetches_pos (s p : Int) (h0 : 0 ≤ s) (h : s < p) :
    sliceFetches s p = true := by
  unfold sliceFetches
  rw [if_neg (by omega), if_neg (by omega)]

/-- Helper: a nonempty slice with negative start never fetches. -/
theorem sliceFetches_neg (s p : Int) (h0 : s < 0) :
    sliceFetches s p = false := by
  unfold sliceFetches
  by_cases h : p ≤ s
  · rw [if_pos h]
  · rw [if_neg h, if_pos h0]

/-- Helper: an empty slice never fetches. -/
theorem sliceFetches_empty (s p : Int) (h : p ≤ s) :
    sliceFetches s p = false := by
  unfold sliceFetches
  rw [if_pos h]

/-- C1 counterexample: with two upstream file entries, per_page = 1 and
    page = 1, get_pull_request_files returns both items rather than the
    one-element window at positions [0, 1) that the claim requires. -/
theorem pagination_uniformity_cex :
    (PullRequests.get_pull_request_files (Except.ok ()) (Except.ok ())
        (Except.ok ([0, 1] : List Nat)) ⟨"acme", "widgets", 7, 1, 1⟩).1
      = Outcome.returned (PullRequests.PROut.payload [0, 1])
    ∧ ¬ ((PullRequests.get_pull_request_files (Except.ok ()) (Except.ok ())
        (Except.ok ([0, 1] : List Nat)) ⟨"acme", "widgets", 7, 1, 1⟩).1
      = Outcome.returned (PullRequests.PROut.payload (([0, 1] : List Nat).take 1))) := by
  constructor
  · rfl
  · decide

/-- C1 (amended): for valid page ≥ 1 and per_page in [1,100] with a
    successful upstream fetch of items l whose length exceeds the window
    start (page-1)*per_page, the slicing operations list_commits (with sha
    supplied), list_branches, search_repositories, search_code and
    search_users return exactly the upstream items at positions
    [(page-1)*per_page, page*per_page) in upstream order (hence at most
    per_page items); when the window starts at or beyond the end of the
    data the PaginatedList slice raises IndexError, which list_commits
    renders as "Error: list index out of range"; list_commits with sha
    omitted fails the client's sha assertion and renders "Error: None"
    before any slicing; search_issues with valid sort and order returns
    the items at positions [(page-1)*30, (page-1)*30+30) independent of
    per_page, while with the schema defaults sort=None, order=None it
    raises AssertionError before any fetch; get_issue_comments returns the
    first per_page items independent of page (given the issue has a
    comment); and list_pull_requests and get_pull_request_files return all
    upstream items regardless of page and per_page. -/
theorem pagination_per_operation {α : Type} (l : List α) (o r q shaStr : String)
    (inum : Int) (pg pp : Int)
    (h1 : 1 ≤ pg) (h2 : 1 ≤ pp) (h3 : pp ≤ 100)
    (hlt : ((pg - 1) * pp).toNat < l.length) :
    GitRepo.list_commits (Except.ok ()) (Except.ok l) ⟨o, r, some shaStr, pp, pg⟩
      = (Outcome.returned (GitRepo.RepoOut.data
          ((l.drop ((pg - 1) * pp).toNat).take pp.toNat)), 2)
    ∧ GitRepo.list_branches (Except.ok ()) (Except.ok l) ⟨o, r, pp, pg⟩
      = (Outcome.returned (GitRepo.RepoOut.data
          ((l.drop ((pg - 1) * pp).toNat).take pp.toNat)), 2)
    ∧ SearchRepo.search_repositories (fun _ => Except.ok l) ⟨q, pp, pg⟩
      = Outcome.returned (SearchRepo.SearchOut.results l.length
          ((l.drop ((pg - 1) * pp).toNat).take pp.toNat))
    ∧ SearchRepo.search_code (fun _ => Except.ok l) ⟨q, none, none, pp, pg⟩
      = Outcome.returned (SearchRepo.SearchOut.results l.length
          ((l.drop ((pg - 1) * pp).toNat).take pp.toNat))
    ∧ SearchRepo.search_users (fun _ => Except.ok l) ⟨q, none, none, pp, pg⟩
      = Outcome.returned (SearchRepo.SearchOut.results l.length
          ((l.drop ((pg - 1) * pp).toNat).take pp.toNat))
    ∧ ((l.drop ((pg - 1) * pp).toNat).take pp.toNat).length ≤ pp.toNat
    ∧ (∀ l2 : List α, l2.length ≤ ((pg - 1) * pp).toNat →
        GitRepo.list_commits (Except.ok ()) (Except.ok l2) ⟨o, r, some shaStr, pp, pg⟩
          = (Outcome.returned
              (GitRepo.RepoOut.errorText "Error: list index out of range"), 2))
    ∧ GitRepo.list_commits (Except.ok ()) (Except.ok l) ⟨o, r, none, pp, pg⟩
      = (Outcome.returned (GitRepo.RepoOut.errorText "Error: None"), 1)
    ∧ GitIssues.search_issues (Except.ok l) ⟨q, some "created", some "desc", pp, pg⟩
      = (Outcome.returned ((l.drop ((pg - 1) * 30).toNat).take 30), 1)
    ∧ GitIssues.search_issues (Except.ok l) ⟨q, none, none, pp, pg⟩
      = (Outcome.raised ⟨ExcKind.assertionError, "None"⟩, 0)
    ∧ GitIssues.get_issue_comments (Except.ok ()) (Except.ok ()) (Except.ok l)
        ⟨o, r, inum, pg, pp⟩
      = (Outcome.returned (l.take pp.toNat), 3)
    ∧ PullRequests.list_pull_requests (Except.ok ()) (fun _ _ _ => Except.ok l)
        ⟨o, r, none, none, none, none, none, pp, pg⟩
      = (Outcome.returned (PullRequests.PROut.payload l), 2)
    ∧ PullRequests.get_pull_request_files (Except.ok ()) (Except.ok ()) (Except.ok l)
        ⟨o, r, inum, pp, pg⟩
      = (Outcome.returned (PullRequests.PROut.payload l), 3) := by
  have hs : (0 : Int) ≤ (pg - 1) * pp := mul_nonneg (by omega) (by omega)
  have key := sliceIter_ok l ((pg - 1) * pp) pp hs (by omega) hlt
  have hfet : sliceFetches ((pg - 1) * pp) ((pg - 1) * pp + pp) = true :=
    sliceFetches_pos _ _ hs (by omega)
  have hfet0 : sliceFetches 0 pp = true := sliceFetches_pos 0 pp (le_refl 0) (by omega)
  have key0 : sliceIter (Except.ok l) 0 pp = Except.ok (l.take pp.toNat) := by
    have h := sliceIter_ok l 0 pp (le_refl 0) (by omega) (by omega)
    simpa using h
  have hcomm : ((30 : Int) * (pg - 1)).toNat = ((pg - 1) * 30).toNat := by
    rw [Int.mul_comm]
  refine ⟨?_, ?_, ?_, ?_, ?_, ?_, ?_, ?_, ?_, ?_, ?_, ?_, ?_⟩
  · simp [GitRepo.list_commits, key, hfet]
  · simp [GitRepo.list_branches, key, hfet]
  · simp [SearchRepo.search_repositories, key]
  · simp [SearchRepo.search_code, SearchRepo.searchCodeQuery, key]
  · simp [SearchRepo.search_users, key]
  · exact List.length_take_le pp.toNat (l.drop ((pg - 1) * pp).toNat)
  · intro l2 hle
    have key2 := sliceIter_oob l2 ((pg - 1) * pp) pp hs (by omega) hle
    simp [GitRepo.list_commits, key2, hfet]
  · simp [GitRepo.list_commits, pyStrOpt]
  · simp [GitIssues.search_issues, GitIssues.getPage, hcomm]
  · simp [GitIssues.search_issues, pyStrOpt]
  · simp [GitIssues.get_issue_comments, key0, hfet0]
  · simp [PullRequests.list_pull_requests, PullRequests.get_repo]
  · simp [PullRequests.get_pull_request_files, PullRequests.get_repo]

/-- C1 witness: the amended statement evaluated at five upstream items,
    page 2, per_page 2, sha supplied, and both the valid and the default
    sort/order of search_issues. -/
theorem pagination_per_operation_witness :
    GitRepo.list_commits (Except.ok ()) (Except.ok ([10, 20, 30, 40, 50] : List Nat))
        ⟨"acme", "widgets", some "main", 2, 2⟩
      = (Outcome.returned (GitRepo.RepoOut.data
          ((([10, 20, 30, 40, 50] : List Nat).drop ((2 - 1) * 2 : Int).toNat).take (2 : Int).toNat)), 2)
    ∧ GitIssues.search_issues (Except.ok ([10, 20, 30, 40, 50] : List Nat))
        ⟨"q", some "created", some "desc", 2, 2⟩
      = (Outcome.returned ((([10, 20, 30, 40, 50] : List Nat).drop ((2 - 1) * 30 : Int).toNat).take 30), 1)
    ∧ GitIssues.search_issues (Except.ok ([10, 20, 30, 40, 50] : List Nat))
        ⟨"q", none, none, 2, 2⟩
      = (Outcome.raised ⟨ExcKind.assertionError, "None"⟩, 0)
    ∧ PullRequests.get_pull_request_files (Except.ok ()) (Except.ok ())
        (Except.ok ([10, 20, 30, 40, 50] : List Nat)) ⟨"acme", "widgets", 1, 2, 2⟩
      = (Outcome.returned (PullRequests.PROut.payload [10, 20, 30, 40, 50]), 3) := by
  have h := pagination_per_operation ([10, 20, 30, 40, 50] : List Nat) "acme" "widgets" "q"
    "main" 1 2 2 (by decide) (by decide) (by decide) (by decide)
  exact ⟨h.1, h.2.2.2.2.2.2.2.2.1, h.2.2.2.2.2.2.2.2.2.1, h.2.2.2.2.2.2.2.2.2.2.2.2⟩

/-- C2 counterexample: get_issue has no try/except, so an upstream
    GithubException from the repository lookup escapes to the caller as a
    raw exception instead of a rendered error result. -/
theorem get_issue_raises_cex :
    (GitIssues.get_issue (Except.error ⟨ExcKind.githubExc, "404 Not Found"⟩)
        (Except.ok (0 : Nat)) ⟨"acme", "widgets", 42⟩).1
      = Outcome.raised ⟨ExcKind.githubExc, "404 Not Found"⟩
    ∧ (GitIssues.get_issue (Except.error ⟨ExcKind.githubExc, "404 Not Found"⟩)
        (Except.ok (0 : Nat)) ⟨"acme", "widgets", 42⟩).1.isReturned = false := by
  constructor
  · rfl
  · rfl

/-- C2 (amended): only the git_repo.py tools (get_commit, list_commits,
    list_branches, create_or_update_file — bare `except Exception`) render
    every failure as an error result.  The git_issues.py tools have no
    handler at all and let every upstream exception escape.  The search
    tools catch only GithubException: a GithubException becomes the error
    dict, any other exception escapes.  The pull-request tools map a
    GithubException in the repository lookup to "Repository not found."
    and one in the body to an error text, but let non-Github exceptions
    escape. -/
theorem error_rendering_per_module {α β : Type} (gr : Except Exc Unit)
    (gc : Except Exc α) (fc : Except Exc (List α)) (doFile : GitRepo.FileAction → Except Exc β)
    (gi : Except Exc α) (pullRes : Except Exc α)
    (pc : GitRepo.GetCommitParams) (pl : GitRepo.ListCommitsParams)
    (pb : GitRepo.ListBranchesParams) (pf : GitRepo.CreateOrUpdateFileParams)
    (pissue : GitIssues.IssueParams) (ppr : PullRequests.GetPullRequestInput)
    (q : String) (pp pg : Int) :
    ((GitRepo.get_commit gr gc pc).1).isReturned = true
    ∧ ((GitRepo.list_commits gr fc pl).1).isReturned = true
    ∧ ((GitRepo.list_branches gr fc pb).1).isReturned = true
    ∧ ((GitRepo.create_or_update_file gr doFile pf).1).isReturned = true
    ∧ (∀ e : Exc, (GitIssues.get_issue (Except.error e) gi pissue).1 = Outcome.raised e)
    ∧ (∀ e : Exc, e.kind = ExcKind.githubExc → 1 ≤ pg → 1 ≤ pp →
        SearchRepo.search_repositories (fun _ => (Except.error e : Except Exc (List α)))
            ⟨q, pp, pg⟩
          = Outcome.returned (SearchRepo.SearchOut.errorDict e.msg))
    ∧ (∀ e : Exc, e.kind ≠ ExcKind.githubExc → 1 ≤ pg → 1 ≤ pp →
        SearchRepo.search_repositories (fun _ => (Except.error e : Except Exc (List α)))
            ⟨q, pp, pg⟩
          = Outcome.raised e)
    ∧ (∀ e : Exc, e.kind = ExcKind.githubExc →
        (PullRequests.get_pull_request (Except.error e) pullRes ppr).1
          = Outcome.returned (PullRequests.PROut.message "Repository not found."))
    ∧ (∀ e : Exc, e.kind ≠ ExcKind.githubExc →
        (PullRequests.get_pull_request (Except.error e) pullRes ppr).1
          = Outcome.raised e) := by
  have hslice : ∀ e : Exc, 1 ≤ pg → 1 ≤ pp →
      sliceIter (Except.error e : Except Exc (List α)) ((pg - 1) * pp)
        ((pg - 1) * pp + pp) = Except.error e := by
    intro e hpg hpp
    have h1 : ¬ ((pg - 1) * pp + pp ≤ (pg - 1) * pp) := by omega
    have h2 : ¬ ((pg - 1) * pp < 0) := by
      have := mul_nonneg (by omega : (0 : Int) ≤ pg - 1) (by omega : (0 : Int) ≤ pp)
      omega
    unfold sliceIter
    rw [if_neg h1, if_neg h2]
  refine ⟨?_, ?_, ?_, ?_, ?_, ?_, ?_, ?_, ?_⟩
  · cases gr with
    | error e => rfl
    | ok u =>
      cases gc with
      | error e => rfl
      | ok c => rfl
  · cases gr with
    | error e => rfl
    | ok u =>
      simp only [GitRepo.list_commits]
      cases pl.sha with
      | none => rfl
      | some s =>
        cases h : sliceIter fc ((pl.page - 1) * pl.per_page)
            ((pl.page - 1) * pl.per_page + pl.per_page) with
        | error e => rfl
        | ok items => rfl
  · cases gr with
    | error e => rfl
    | ok u =>
      simp only [GitRepo.list_branches]
      cases h : sliceIter fc ((pb.page - 1) * pb.per_page)
          ((pb.page - 1) * pb.per_page + pb.per_page) with
      | error e => rfl
      | ok items => rfl
  · cases gr with
    | error e => rfl
    | ok u =>
      simp only [GitRepo.create_or_update_file]
      cases h : doFile (GitRepo.fileAction pf) with
      | error e => rfl
      | ok resp => rfl
  · intro e
    rfl
  · intro e he hpg hpp
    simp [SearchRepo.search_repositories, hslice e hpg hpp, he]
  · intro e he hpg hpp
    simp [SearchRepo.search_repositories, hslice e hpg hpp, he]
  · intro e he
    simp [PullRequests.get_pull_request, PullRequests.get_repo, he]
  · intro e he
    simp [PullRequests.get_pull_request, PullRequests.get_repo, he]

/-- C2 witness: the amended statement evaluated at concrete inputs,
    discharging each hypothesis. -/
theorem error_rendering_per_module_witness :
    ((GitRepo.get_commit (Except.error ⟨ExcKind.githubExc, "403"⟩) (Except.ok (0 : Nat))
        ⟨"acme", "widgets", "abc"⟩).1).isReturned = true
    ∧ (GitIssues.get_issue (Except.error ⟨ExcKind.otherExc, "boom"⟩) (Except.ok (0 : Nat))
        ⟨"acme", "widgets", 42⟩).1 = Outcome.raised ⟨ExcKind.otherExc, "boom"⟩
    ∧ SearchRepo.search_repositories
        (fun _ => (Except.error ⟨ExcKind.githubExc, "422"⟩ : Except Exc (List Nat)))
        ⟨"q", 30, 1⟩
      = Outcome.returned (SearchRepo.SearchOut.errorDict "422")
    ∧ SearchRepo.search_repositories
        (fun _ => (Except.error ⟨ExcKind.otherExc, "oops"⟩ : Except Exc (List Nat)))
        ⟨"q", 30, 1⟩
      = Outcome.raised ⟨ExcKind.otherExc, "oops"⟩
    ∧ (PullRequests.get_pull_request (Except.error ⟨ExcKind.githubExc, "404"⟩)
        (Except.ok (0 : Nat)) ⟨"acme", "widgets", 7⟩).1
      = Outcome.returned (PullRequests.PROut.message "Repository not found.")
    ∧ (PullRequests.get_pull_request (Except.error ⟨ExcKind.typeError, "bad"⟩)
        (Except.ok (0 : Nat)) ⟨"acme", "widgets", 7⟩).1
      = Outcome.raised ⟨ExcKind.typeError, "bad"⟩ := by
  have h := @error_rendering_per_module Nat Nat
    (Except.error ⟨ExcKind.githubExc, "403"⟩) (Except.ok 0) (Except.ok [])
    (fun _ => Except.ok 0) (Except.ok 0) (Except.ok 0)
    ⟨"acme", "widgets", "abc"⟩ ⟨"acme", "widgets", none, 30, 1⟩
    ⟨"acme", "widgets", 30, 1⟩ ⟨"acme", "widgets", "f.txt", "data", "msg", "main", none⟩
    ⟨"acme", "widgets", 42⟩ ⟨"acme", "widgets", 7⟩ "q" 30 1
  refine ⟨h.1, ?_, ?_, ?_, ?_, ?_⟩
  · exact h.2.2.2.2.1 ⟨ExcKind.otherExc, "boom"⟩
  · exact h.2.2.2.2.2.1 ⟨ExcKind.githubExc, "422"⟩ rfl (by decide) (by decide)
  · exact h.2.2.2.2.2.2.1 ⟨ExcKind.otherExc, "oops"⟩ (by decide) (by decide) (by decide)
  · exact h.2.2.2.2.2.2.2.1 ⟨ExcKind.githubExc, "404"⟩ rfl
  · exact h.2.2.2.2.2.2.2.2 ⟨ExcKind.typeError, "bad"⟩ (by decide)

/-- C3 counterexample: get_commit with a persistently rate-limited
    repository lookup invokes the upstream exactly once — it is never
    retried — and the failure is rendered as the generic stringified
    error, not a distinguished rate-limit result. -/
theorem rate_limit_not_retried_cex :
    GitRepo.get_commit (Except.error ⟨ExcKind.githubExc, "403 API rate limit exceeded"⟩)
        (Except.ok (0 : Nat)) ⟨"acme", "widgets", "abc"⟩
      = (Outcome.returned (GitRepo.RepoOut.errorText "Error: 403 API rate limit exceeded"), 1)
    ∧ ¬ (2 ≤ (GitRepo.get_commit
        (Except.error ⟨ExcKind.githubExc, "403 API rate limit exceeded"⟩)
        (Except.ok (0 : Nat)) ⟨"acme", "widgets", "abc"⟩).2) := by
  constructor
  · rfl
  · decide

/-- C3 (amended): no retry or transient/permanent classification exists:
    every upstream primitive along a handler's control path is invoked at
    most once; a failure of the first call — rate-limit and not-found
    alike — surfaces immediately after exactly one invocation, rendered as
    the same generic stringified error text, and the pull-request
    repository lookup likewise performs exactly one attempt whatever its
    outcome. -/
theorem no_retry_single_attempt {α : Type} (gr : Except Exc Unit) (gc : Except Exc α)
    (p : GitRepo.GetCommitParams) (res : Except Exc Unit) :
    (GitRepo.get_commit gr gc p).2 ≤ 2
    ∧ (∀ e : Exc, gr = Except.error e →
        GitRepo.get_commit gr gc p
          = (Outcome.returned (GitRepo.RepoOut.errorText ("Error: " ++ e.msg)), 1))
    ∧ (PullRequests.get_repo res).2 = 1 := by
  refine ⟨?_, ?_, ?_⟩
  · cases gr with
    | error e => exact Nat.le_succ 1
    | ok u =>
      cases gc with
      | error e => exact le_refl 2
      | ok c => exact le_refl 2
  · intro e he
    subst he
    rfl
  · cases res with
    | error e =>
      by_cases h : e.kind = ExcKind.githubExc
      · simp [PullRequests.get_repo, h]
      · simp [PullRequests.get_repo, h]
    | ok r => rfl

/-- C3 witness: the amended statement evaluated at a rate-limit failure of
    the repository lookup. -/
theorem no_retry_single_attempt_witness :
    (GitRepo.get_commit (Except.error ⟨ExcKind.githubExc, "403 rate limit"⟩)
        (Except.ok (0 : Nat)) ⟨"acme", "widgets", "abc"⟩).2 ≤ 2
    ∧ GitRepo.get_commit (Except.error ⟨ExcKind.githubExc, "403 rate limit"⟩)
        (Except.ok (0 : Nat)) ⟨"acme", "widgets", "abc"⟩
      = (Outcome.returned (GitRepo.RepoOut.errorText "Error: 403 rate limit"), 1)
    ∧ (PullRequests.get_repo (Except.error ⟨ExcKind.githubExc, "404"⟩ : Except Exc Unit)).2
      = 1 := by
  have h := no_retry_single_attempt
    (Except.error ⟨ExcKind.githubExc, "403 rate limit"⟩) (Except.ok (0 : Nat))
    ⟨"acme", "widgets", "abc"⟩ (Except.error ⟨ExcKind.githubExc, "404"⟩)
  exact ⟨h.1, h.2.1 ⟨ExcKind.githubExc, "403 rate limit"⟩ rfl, h.2.2⟩

/-- C4 counterexample: list_commits called with page = 0 (and sha
    supplied) still performs the upstream repository lookup — one upstream
    invocation, not zero; the negative PaginatedList slice then raises
    IndexError on the empty cache before any further fetch and the bare
    except renders it, so the result is an error text, never a
    validation-error result. -/
theorem page_zero_calls_upstream_cex :
    GitRepo.list_commits (Except.ok ()) (Except.ok ([0, 1, 2] : List Nat))
        ⟨"acme", "widgets", some "main", 30, 0⟩
      = (Outcome.returned (GitRepo.RepoOut.errorText "Error: list index out of range"), 1)
    ∧ (GitRepo.list_commits (Except.ok ()) (Except.ok ([0, 1, 2] : List Nat))
        ⟨"acme", "widgets", some "main", 30, 0⟩).2 ≠ 0 := by
  constructor
  · rfl
  · decide

/-- C4 (amended): no page/per_page validation exists anywhere.
    list_commits always performs its upstream repository lookup first
    (call count at least 1 for every input whatsoever) and never produces
    a validation-error result: with sha supplied, page < 1 together with
    per_page ≥ 1 makes the negative slice raise IndexError on the empty
    cache before any commit fetch, rendered as
    "Error: list index out of range" after the single repository-lookup
    invocation; per_page < 1 yields a successfully rendered empty page,
    the empty slice likewise never fetching; and with sha omitted the
    client's sha assertion fails, rendered as "Error: None", again after
    the single repository-lookup invocation. -/
theorem no_pagination_validation {α : Type} (gr : Except Exc Unit)
    (fc : Except Exc (List α)) (p : GitRepo.ListCommitsParams) :
    1 ≤ (GitRepo.list_commits gr fc p).2
    ∧ (∀ s : String, p.sha = some s → p.page ≤ 0 → 1 ≤ p.per_page →
        GitRepo.list_commits (Except.ok ()) fc p
          = (Outcome.returned
              (GitRepo.RepoOut.errorText "Error: list index out of range"), 1))
    ∧ (∀ s : String, p.sha = some s → p.per_page ≤ 0 →
        GitRepo.list_commits (Except.ok ()) fc p
          = (Outcome.returned (GitRepo.RepoOut.data ([] : List α)), 1))
    ∧ (p.sha = none →
        GitRepo.list_commits (Except.ok ()) fc p
          = (Outcome.returned (GitRepo.RepoOut.errorText "Error: None"), 1)) := by
  refine ⟨?_, ?_, ?_, ?_⟩
  · cases gr with
    | error e => exact le_refl 1
    | ok u =>
      simp only [GitRepo.list_commits]
      cases p.sha with
      | none => exact le_refl 1
      | some s =>
        cases h : sliceIter fc ((p.page - 1) * p.per_page)
            ((p.page - 1) * p.per_page + p.per_page) with
        | error e =>
          cases hf : sliceFetches ((p.page - 1) * p.per_page)
              ((p.page - 1) * p.per_page + p.per_page) with
          | false => simp
          | true => simp
        | ok items =>
          cases hf : sliceFetches ((p.page - 1) * p.per_page)
              ((p.page - 1) * p.per_page + p.per_page) with
          | false => simp
          | true => simp
  · intro s hsha hpg hpp
    have h2 : (p.page - 1) * p.per_page < 0 := by
      have hneg : p.page - 1 ≤ -1 := by omega
      have := mul_le_mul_of_nonneg_right hneg (by omega : (0 : Int) ≤ p.per_page)
      omega
    have hneq := sliceIter_neg fc ((p.page - 1) * p.per_page)
      ((p.page - 1) * p.per_page + p.per_page) h2 (by omega)
    have hf := sliceFetches_neg ((p.page - 1) * p.per_page)
      ((p.page - 1) * p.per_page + p.per_page) h2
    simp [GitRepo.list_commits, hsha, hneq, hf]
  · intro s hsha hpp
    have hle : (p.page - 1) * p.per_page + p.per_page ≤ (p.page - 1) * p.per_page := by
      omega
    have hemp := sliceIter_empty fc ((p.page - 1) * p.per_page)
      ((p.page - 1) * p.per_page + p.per_page) hle
    have hf := sliceFetches_empty ((p.page - 1) * p.per_page)
      ((p.page - 1) * p.per_page + p.per_page) hle
    simp [GitRepo.list_commits, hsha, hemp, hf]
  · intro hsha
    simp [GitRepo.list_commits, hsha, pyStrOpt]

/-- C4 witness: the amended statement evaluated at page = 0 with
    per_page = 30, at per_page = 0 with page = 1, and at sha omitted. -/
theorem no_pagination_validation_witness :
    1 ≤ (GitRepo.list_commits (Except.ok ()) (Except.ok ([0, 1, 2] : List Nat))
        ⟨"acme", "widgets", some "main", 30, 0⟩).2
    ∧ GitRepo.list_commits (Except.ok ()) (Except.ok ([0, 1, 2] : List Nat))
        ⟨"acme", "widgets", some "main", 30, 0⟩
      = (Outcome.returned (GitRepo.RepoOut.errorText "Error: list index out of range"), 1)
    ∧ GitRepo.list_commits (Except.ok ()) (Except.ok ([0, 1, 2] : List Nat))
        ⟨"acme", "widgets", some "main", 0, 1⟩
      = (Outcome.returned (GitRepo.RepoOut.data ([] : List Nat)), 1)
    ∧ GitRepo.list_commits (Except.ok ()) (Except.ok ([0, 1, 2] : List Nat))
        ⟨"acme", "widgets", none, 30, 1⟩
      = (Outcome.returned (GitRepo.RepoOut.errorText "Error: None"), 1) := by
  have ha := no_pagination_validation (Except.ok ()) (Except.ok ([0, 1, 2] : List Nat))
    ⟨"acme", "widgets", some "main", 30, 0⟩
  have hb := no_pagination_validation (Except.ok ()) (Except.ok ([0, 1, 2] : List Nat))
    ⟨"acme", "widgets", some "main", 0, 1⟩
  have hc := no_pagination_validation (Except.ok ()) (Except.ok ([0, 1, 2] : List Nat))
    ⟨"acme", "widgets", none, 30, 1⟩
  exact ⟨ha.1, ha.2.1 "main" rfl (by decide) (by decide), hb.2.2.1 "main" rfl (by decide),
    hc.2.2.2 rfl⟩

/-- C5: list_issues with `since` omitted raises TypeError.  The keyword
    dict comprehension filters out None values, showing the intent that an
    absent `since` be skipped, but datetime.fromisoformat(params.since) is
    evaluated while the dict is being built, before that filter can run,
    so the call never completes: the TypeError escapes after the single
    repository lookup. -/
theorem list_issues_since_none_raises :
    GitIssues.list_issues (Except.ok ()) (Except.ok (0 : Nat))
        ⟨"acme", "widgets", some "open", none, none, none, none, 30, 1⟩
      = (Outcome.raised ⟨ExcKind.typeError, "fromisoformat: argument must be str"⟩, 1) := by
  rfl

/-- C6 counterexample: with sha present but equal to the empty string —
    a present field the `if sha:` truthiness test treats as absent — the
    operation performs a create, not an update. -/
theorem empty_sha_creates_cex :
    GitRepo.fileAction ⟨"acme", "widgets", "f.txt", "data", "msg", "main", some ""⟩
      = GitRepo.FileAction.create "f.txt" "msg" "data" "main"
    ∧ GitRepo.fileAction ⟨"acme", "widgets", "f.txt", "data", "msg", "main", some ""⟩
      ≠ GitRepo.FileAction.update "f.txt" "msg" "data" "" "main" := by
  constructor
  · rfl
  · decide

/-- C6 (amended): create_or_update_file dispatches on Python truthiness of
    sha: with sha absent it creates, with sha a non-empty string — in
    particular any real sha returned by a previous create, so the
    create-then-update round trip holds — it updates the file identified
    by that sha, and with sha present but empty it creates. -/
theorem file_sha_dispatch (p : GitRepo.CreateOrUpdateFileParams) :
    (p.sha = none →
      GitRepo.fileAction p
        = GitRepo.FileAction.create p.path p.message p.content p.branch)
    ∧ (∀ s : String, p.sha = some s → s ≠ "" →
        GitRepo.fileAction p
          = GitRepo.FileAction.update p.path p.message p.content s p.branch)
    ∧ (p.sha = some "" →
        GitRepo.fileAction p
          = GitRepo.FileAction.create p.path p.message p.content p.branch) := by
  refine ⟨?_, ?_, ?_⟩
  · intro h
    simp [GitRepo.fileAction, pyTruthy, h]
  · intro s hs hne
    simp [GitRepo.fileAction, pyTruthy, hs, hne]
  · intro h
    simp [GitRepo.fileAction, pyTruthy, h]

/-- C6 witness: a create without sha and an update with the non-empty sha
    a previous create returned. -/
theorem file_sha_dispatch_witness :
    GitRepo.fileAction ⟨"acme", "widgets", "f.txt", "data", "msg", "main", none⟩
      = GitRepo.FileAction.create "f.txt" "msg" "data" "main"
    ∧ GitRepo.fileAction ⟨"acme", "widgets", "f.txt", "data2", "msg2", "main", some "abc123"⟩
      = GitRepo.FileAction.update "f.txt" "msg2" "data2" "abc123" "main" := by
  have h1 := file_sha_dispatch ⟨"acme", "widgets", "f.txt", "data", "msg", "main", none⟩
  have h2 := file_sha_dispatch ⟨"acme", "widgets", "f.txt", "data2", "msg2", "main", some "abc123"⟩
  exact ⟨h1.1 rfl, h2.2.1 "abc123" rfl (by decide)⟩

/-- Helper: renaming the branch does not alter the commit list. -/
theorem afterBranch_commits (b : String) (r : GitRepo.LocalRepo) :
    (GitRepo.afterBranch b r).commits = r.commits := rfl

/-- Helper: ensuring the remote does not alter the commit list. -/
theorem afterRemote_commits (u : String) (r : GitRepo.LocalRepo) :
    (GitRepo.afterRemote u r).commits = r.commits := by
  unfold GitRepo.afterRemote
  by_cases h : r.remotes.any (fun rm => rm.1 == "origin")
  · rw [if_pos h]
  · rw [if_neg h]

/-- Helper: ensuring the remote does not alter the branch. -/
theorem afterRemote_branch (u : String) (r : GitRepo.LocalRepo) :
    (GitRepo.afterRemote u r).branch = r.branch := by
  unfold GitRepo.afterRemote
  by_cases h : r.remotes.any (fun rm => rm.1 == "origin")
  · rw [if_pos h]
  · rw [if_neg h]

/-- Helper: the commit-if-none step appends the message exactly when the
    history is empty. -/
theorem afterCommit_commits (msg : String) (r : GitRepo.LocalRepo) :
    (GitRepo.afterCommit msg r).commits
      = if r.commits.isEmpty then r.commits ++ [msg] else r.commits := by
  unfold GitRepo.afterCommit
  by_cases h : r.commits.isEmpty
  · rw [if_pos h, if_pos h]
  · rw [if_neg h, if_neg h]

/-- Helper: after the commit-if-none step the history is never empty. -/
theorem afterCommit_ne_nil (msg : String) (r : GitRepo.LocalRepo) :
    (GitRepo.afterCommit msg r).commits ≠ [] := by
  rw [afterCommit_commits]
  by_cases h : r.commits.isEmpty
  · rw [if_pos h]
    simp
  · rw [if_neg h]
    simpa [List.isEmpty_iff] using h

/-- Helper: with an existing non-empty history the commit step is a
    no-op. -/
theorem afterCommit_of_ne_nil (msg : String) (r : GitRepo.LocalRepo)
    (h : r.commits ≠ []) : GitRepo.afterCommit msg r = r := by
  unfold GitRepo.afterCommit
  rw [if_neg]
  simpa [List.isEmpty_iff] using h

/-- Helper: loading an existing repository keeps its state. -/
theorem loadedRepo_of_git (fs : GitRepo.LocalFS) (h : fs.isGitRepo = true) :
    GitRepo.loadedRepo fs = fs.repo := by
  simp [GitRepo.loadedRepo, h]

/-- Helper: the local state push_to_github leaves behind is pushState when
    the path exists and is untouched otherwise, for any push outcome. -/
theorem push_state (pr : Except Exc Unit) (p : GitRepo.GitPushLocalTOGIT)
    (fs : GitRepo.LocalFS) :
    (GitRepo.push_to_github pr p fs).2
      = if fs.pathExists then GitRepo.pushState p fs else fs := by
  by_cases h : fs.pathExists = true
  · cases pr with
    | ok u => simp [GitRepo.push_to_github, h]
    | error e => simp [GitRepo.push_to_github, h]
  · have h' : fs.pathExists = false := by
      cases hx : fs.pathExists
      · rfl
      · exact absurd hx h
    cases pr with
    | ok u => simp [GitRepo.push_to_github, h']
    | error e => simp [GitRepo.push_to_github, h']

/-- Helper: flags of the post-push state. -/
theorem pushState_flags (p : GitRepo.GitPushLocalTOGIT) (fs : GitRepo.LocalFS)
    (h : fs.pathExists = true) :
    (GitRepo.pushState p fs).pathExists = true
    ∧ (GitRepo.pushState p fs).isGitRepo = true := by
  constructor
  · simp [GitRepo.pushState, h]
  · simp [GitRepo.pushState, h]

/-- Helper: the commit list of the post-push state. -/
theorem pushState_repo_commits (p : GitRepo.GitPushLocalTOGIT) (fs : GitRepo.LocalFS)
    (h : fs.pathExists = true) :
    (GitRepo.pushState p fs).repo.commits
      = (GitRepo.afterCommit (GitRepo.effCommitMsg p) (GitRepo.loadedRepo fs)).commits := by
  simp [GitRepo.pushState, h, afterRemote_commits, afterBranch_commits]

/-- Helper: the branch of the post-push state. -/
theorem pushState_repo_branch (p : GitRepo.GitPushLocalTOGIT) (fs : GitRepo.LocalFS)
    (h : fs.pathExists = true) :
    (GitRepo.pushState p fs).repo.branch = GitRepo.effBranch p := by
  simp [GitRepo.pushState, h, afterRemote_branch, GitRepo.afterBranch]

/-- C7: push_to_github is commit-idempotent.  A second push with the same
    inputs and no intervening local change never creates a second commit;
    a commit is created on the first call only when the repository has no
    prior commit; and with an existing repository the history is never
    amended — it is either kept as is or extended by exactly one commit. -/
theorem push_no_second_commit (pr1 pr2 : Except Exc Unit)
    (p : GitRepo.GitPushLocalTOGIT) (fs : GitRepo.LocalFS) :
    ((GitRepo.push_to_github pr2 p (GitRepo.push_to_github pr1 p fs).2).2).repo.commits
      = ((GitRepo.push_to_github pr1 p fs).2).repo.commits
    ∧ (fs.pathExists = true → fs.isGitRepo = true → fs.repo.commits ≠ [] →
        ((GitRepo.push_to_github pr1 p fs).2).repo.commits = fs.repo.commits)
    ∧ (fs.isGitRepo = true →
        ((GitRepo.push_to_github pr1 p fs).2).repo.commits = fs.repo.commits
        ∨ ((GitRepo.push_to_github pr1 p fs).2).repo.commits
            = fs.repo.commits ++ [GitRepo.effCommitMsg p]) := by
  by_cases hpe : fs.pathExists = true
  · have h1 : (GitRepo.push_to_github pr1 p fs).2 = GitRepo.pushState p fs := by
      rw [push_state, if_pos hpe]
    have hflags := pushState_flags p fs hpe
    refine ⟨?_, ?_, ?_⟩
    · have h2 : (GitRepo.push_to_github pr2 p (GitRepo.push_to_github pr1 p fs).2).2
          = GitRepo.pushState p (GitRepo.pushState p fs) := by
        rw [h1, push_state, if_pos hflags.1]
      rw [h2, h1]
      rw [pushState_repo_commits p _ hflags.1, loadedRepo_of_git _ hflags.2]
      have hne : (GitRepo.pushState p fs).repo.commits ≠ [] := by
        rw [pushState_repo_commits p fs hpe]
        exact afterCommit_ne_nil _ _
      rw [afterCommit_of_ne_nil _ _ hne]
    · intro _ hgit hne
      rw [h1, pushState_repo_commits p fs hpe, loadedRepo_of_git fs hgit,
        afterCommit_of_ne_nil _ _ hne]
    · intro hgit
      rw [h1, pushState_repo_commits p fs hpe, loadedRepo_of_git fs hgit,
        afterCommit_commits]
      by_cases hz : fs.repo.commits.isEmpty
      · right
        rw [if_pos hz]
      · left
        rw [if_neg hz]
  · have h0 : (GitRepo.push_to_github pr1 p fs).2 = fs := by
      rw [push_state, if_neg]
      simpa using hpe
    refine ⟨?_, ?_, ?_⟩
    · rw [h0]
      have h0' : (GitRepo.push_to_github pr2 p fs).2 = fs := by
        rw [push_state, if_neg]
        simpa using hpe
      rw [h0']
    · intro hp
      exact absurd hp hpe
    · intro _
      left
      rw [h0]

/-- C7 witness: a repository with one existing commit keeps exactly that
    history across two consecutive pushes. -/
theorem push_no_second_commit_witness :
    ((GitRepo.push_to_github (Except.ok ()) ⟨"/r", "u", "main", none⟩
        (GitRepo.push_to_github (Except.ok ()) ⟨"/r", "u", "main", none⟩
          ⟨true, true, ⟨["c1"], "main", [("origin", "u")]⟩⟩).2).2).repo.commits
      = ((GitRepo.push_to_github (Except.ok ()) ⟨"/r", "u", "main", none⟩
          ⟨true, true, ⟨["c1"], "main", [("origin", "u")]⟩⟩).2).repo.commits
    ∧ ((GitRepo.push_to_github (Except.ok ()) ⟨"/r", "u", "main", none⟩
          ⟨true, true, ⟨["c1"], "main", [("origin", "u")]⟩⟩).2).repo.commits = ["c1"] := by
  have h := push_no_second_commit (Except.ok ()) (Except.ok ()) ⟨"/r", "u", "main", none⟩
    ⟨true, true, ⟨["c1"], "main", [("origin", "u")]⟩⟩
  exact ⟨h.1, h.2.1 rfl rfl (by decide)⟩

/-- C8: when state, sort and direction are omitted, list_pull_requests
    forwards exactly state "open", sort "created", direction "desc" to the
    upstream pull listing call, and its behavior coincides with the
    handler whose upstream is pinned to those three values. -/
theorem list_pulls_default_forwarding {α : Type} (repoRes : Except Exc Unit)
    (f : String → String → String → Except Exc (List α))
    (d : PullRequests.ListPullRequestsInput)
    (h1 : d.state = none) (h2 : d.sort = none) (h3 : d.direction = none) :
    PullRequests.forwardedPulls d = ("open", "created", "desc")
    ∧ PullRequests.list_pull_requests repoRes f d
      = PullRequests.list_pull_requests repoRes (fun _ _ _ => f "open" "created" "desc") d := by
  have hf : PullRequests.forwardedPulls d = ("open", "created", "desc") := by
    simp [PullRequests.forwardedPulls, h1, h2, h3]
  refine ⟨hf, ?_⟩
  simp [PullRequests.list_pull_requests, hf]

/-- C8 witness: the forwarded triple at a request naming only owner and
    repo. -/
theorem list_pulls_default_forwarding_witness :
    PullRequests.forwardedPulls ⟨"acme", "widgets", none, none, none, none, none, 30, 1⟩
      = ("open", "created", "desc") :=
  (list_pulls_default_forwarding (Except.ok ()) (fun _ _ _ => Except.ok ([] : List Nat))
    ⟨"acme", "widgets", none, none, none, none, none, 30, 1⟩ rfl rfl rfl).1

/-- C9: two search_code requests identical except in sort and order issue
    the same upstream query and produce the same result — the schema
    accepts sort and order but the handler never forwards or consults
    them. -/
theorem search_code_sort_order_irrelevant {α : Type}
    (fetch : String → Except Exc (List α)) (q : String)
    (s1 o1 s2 o2 : Option String) (pp pg : Int) :
    SearchRepo.search_code fetch ⟨q, s1, o1, pp, pg⟩
      = SearchRepo.search_code fetch ⟨q, s2, o2, pp, pg⟩
    ∧ SearchRepo.searchCodeQuery ⟨q, s1, o1, pp, pg⟩
      = SearchRepo.searchCodeQuery ⟨q, s2, o2, pp, pg⟩ :=
  ⟨rfl, rfl⟩

/-- C10: push_to_github substitutes fixed defaults for falsy inputs at
    entry: an omitted commit_msg makes any commit it creates carry
    "Initial commit", and an empty-string branch silently targets branch
    "main" instead of failing validation. -/
theorem push_falsy_defaults (pr : Except Exc Unit) (p : GitRepo.GitPushLocalTOGIT)
    (fs : GitRepo.LocalFS) :
    (p.commit_msg = none → GitRepo.effCommitMsg p = "Initial commit")
    ∧ (p.branch = "" → GitRepo.effBranch p = "main")
    ∧ (p.commit_msg = none → fs.pathExists = true → fs.isGitRepo = true →
        fs.repo.commits = [] →
        ((GitRepo.push_to_github pr p fs).2).repo.commits = ["Initial commit"])
    ∧ (p.branch = "" → fs.pathExists = true →
        ((GitRepo.push_to_github pr p fs).2).repo.branch = "main") := by
  refine ⟨?_, ?_, ?_, ?_⟩
  · intro h
    simp [GitRepo.effCommitMsg, h]
  · intro h
    simp [GitRepo.effBranch, h]
  · intro hm hpe hgit hnil
    rw [push_state, if_pos hpe, pushState_repo_commits p fs hpe,
      loadedRepo_of_git fs hgit, afterCommit_commits, hnil]
    simp [GitRepo.effCommitMsg, hm]
  · intro hb hpe
    rw [push_state, if_pos hpe, pushState_repo_branch p fs hpe]
    simp [GitRepo.effBranch, hb]

/-- C10 witness: an empty branch and omitted commit_msg on an empty
    repository commit "Initial commit" onto branch "main". -/
theorem push_falsy_defaults_witness :
    ((GitRepo.push_to_github (Except.ok ()) ⟨"/r", "u", "", none⟩
        ⟨true, true, ⟨[], "master", []⟩⟩).2).repo.commits = ["Initial commit"]
    ∧ ((GitRepo.push_to_github (Except.ok ()) ⟨"/r", "u", "", none⟩
        ⟨true, true, ⟨[], "master", []⟩⟩).2).repo.branch = "main" := by
  have h := push_falsy_defaults (Except.ok ()) ⟨"/r", "u", "", none⟩
    ⟨true, true, ⟨[], "master", []⟩⟩
  exact ⟨h.2.2.1 rfl rfl rfl rfl, h.2.2.2 rfl rfl⟩
